import Mathlib

/-!
Shallow embedding of the block-layer bio data-integrity subsystem
(`block/bio-integrity.c`).  Machine integers are modelled as `Nat`
(the quantities involved — segment counts, byte lengths, sector numbers —
never overflow on the inputs considered), pointers to pages as `Nat`
physical page numbers, byte-addressable memory as `Nat → Nat`, and
fallible C functions as `Except Err`.  Helpers that live outside this
file in the kernel tree (`bvec_try_merge_hw_page`, `bvec_gap_to_prev`,
`iov_iter` helpers, `bio_integrity_bytes`) are modelled from the spec
and marked as such in their doc comments.
-/

namespace BioIntegrity

/-- Bytes per page (`PAGE_SIZE`). -/
def PAGE_SIZE : Nat := 4096

/-- `SECTOR_SHIFT`: a sector is `2 ^ 9 = 512` bytes. -/
def SECTOR_SHIFT : Nat := 9

/-- `BIO_MAX_VECS`. -/
def BIO_MAX_VECS : Nat := 256

/-- `BLK_STS_RESOURCE` terminal status value. -/
def BLK_STS_RESOURCE : Nat := 9

/-- Byte-addressable physical memory: address → byte value. -/
def Mem : Type := Nat → Nat

/-- Store one byte at address `a`. -/
def memWrite (m : Mem) (a d : Nat) : Mem := fun x => if x = a then d else m x

/-- Sequentially store the bytes `ds` at the addresses `as'`
(stops when either list runs out, later stores win). -/
def writeList (m : Mem) : List Nat → List Nat → Mem
  | a :: as', d :: ds => writeList (memWrite m a d) as' ds
  | _, _ => m

/-- Read the bytes at the given addresses. -/
def readList (m : Mem) (addrs : List Nat) : List Nat := addrs.map m

/-- A scatter-gather element: `struct bio_vec` = {page, length, offset}. -/
structure BioVec where
  bv_page : Nat
  bv_len : Nat
  bv_offset : Nat
deriving DecidableEq

/-- The all-zero `bio_vec` (freshly zeroed slot). -/
def zeroVec : BioVec := ⟨0, 0, 0⟩

/-- The physical byte addresses covered by one segment, in order. -/
def segAddrs (s : BioVec) : List Nat :=
  (List.range s.bv_len).map (fun i => s.bv_page * PAGE_SIZE + s.bv_offset + i)

/-- The physical byte addresses covered by a segment list, in logical order. -/
def flatAddrs : List BioVec → List Nat
  | [] => []
  | s :: ss => segAddrs s ++ flatAddrs ss

/-- Sum of the segment lengths of a vector. -/
def sumLens : List BioVec → Nat
  | [] => 0
  | s :: ss => s.bv_len + sumLens ss

/-- `struct bvec_iter`: the progress cursor of a payload or bio. -/
structure BvecIter where
  bi_sector : Nat
  bi_size : Nat
  bi_idx : Nat
  bi_bvec_done : Nat
deriving DecidableEq

/-- The zero iterator (freshly zeroed payload). -/
def zeroIter : BvecIter := ⟨0, 0, 0, 0⟩

/-- The `bip_flags` bits used by this file:
`BIP_COPY_USER`, `BIP_BLOCK_INTEGRITY`, `BIP_IP_CHECKSUM`. -/
structure BipFlags where
  copy_user : Bool := false
  block_integrity : Bool := false
  ip_checksum : Bool := false
deriving DecidableEq

/-- `struct bio_integrity_payload`.  `bip_vec` is the segment slot array
(slots `0 ..` as allocated), `bip_vcnt` the number of filled slots,
`bip_max_vcnt` the reported capacity, `bip_iter` the metadata cursor and
`bio_iter` the saved data iterator used for READ completion. -/
structure BioIntegrityPayload where
  bip_vec : List BioVec
  bip_iter : BvecIter
  bip_vcnt : Nat
  bip_max_vcnt : Nat
  bip_flags : BipFlags
  bio_iter : BvecIter
deriving DecidableEq

/-- Request operation: `REQ_OP_READ`, `REQ_OP_WRITE`, or any other opcode
(discard, flush, ...) which `bio_integrity_prep` passes through. -/
inductive BioOp
  | read
  | write
  | other
deriving DecidableEq

/-- The slice of `struct bio` this subsystem reads and writes. -/
structure Bio where
  bi_op : BioOp
  bi_status : Nat
  bi_iter : BvecIter
  bi_integrity : Option BioIntegrityPayload
  has_crypt_ctx : Bool
deriving DecidableEq

/-- `bio_sectors(bio) = bio->bi_iter.bi_size >> 9`. -/
def bio_sectors (bio : Bio) : Nat := bio.bi_iter.bi_size / 2 ^ SECTOR_SHIFT

/-- `bio_data_dir(bio) == READ`.  Only reads have the read direction;
this model is only consulted on read/write bios. -/
def bio_data_dir_read (bio : Bio) : Bool := bio.bi_op == BioOp.read

/-- The request-queue limits consulted by this file.  `try_merge_hw` and
`gap_to_prev` are modelled from the spec: `try_merge_hw prev page len offset`
is the device hardware-merge check of `bvec_try_merge_hw_page` ("the new
region is contiguous with `prev` and the merged length fits device DMA
constraints"); on success the caller extends `prev` by `len`.
`gap_to_prev prev offset` is `bvec_gap_to_prev` ("appending at `offset`
would create a disallowed gap from the previous segment").  Both helpers
live outside this file in the kernel tree. -/
structure Queue where
  max_integrity_segments : Nat
  max_hw_sectors : Nat
  dma_alignment : Nat
  try_merge_hw : BioVec → Nat → Nat → Nat → Bool
  gap_to_prev : BioVec → Nat → Bool

/-- `enum blk_integrity_checksum`. -/
inductive CsumType
  | none
  | ip
  | crc
  | crc64
deriving DecidableEq

/-- The device integrity profile (`struct blk_integrity`) fields read by
this file.  `sectors_per_interval` and `tuple_size` are modelled from the
spec ("bytes-per-integrity-interval"): one checksum of `tuple_size` bytes
covers `sectors_per_interval` data sectors. -/
structure BlkIntegrity where
  csum_type : CsumType
  noverify : Bool
  nogenerate : Bool
  tuple_size : Nat
  sectors_per_interval : Nat

/-- Modelled from the spec: the number of integrity intervals covered by
`sectors` data sectors (`bio_integrity_intervals`). -/
def bio_integrity_intervals (bi : BlkIntegrity) (sectors : Nat) : Nat :=
  sectors / bi.sectors_per_interval

/-- Modelled from the spec: metadata bytes for `sectors` data sectors =
interval count × metadata bytes per interval (`bio_integrity_bytes`). -/
def bio_integrity_bytes (bi : BlkIntegrity) (sectors : Nat) : Nat :=
  bio_integrity_intervals bi sectors * bi.tuple_size

/-- Error codes returned by this file (negated errnos in C). -/
inductive Err
  | EOPNOTSUPP
  | ENOMEM
  | EINVAL
  | E2BIG
  | EFAULT
deriving DecidableEq

/-- The freshly zeroed payload `bio_integrity_alloc` produces: zeroed
slots, cursor and flags, `bip_max_vcnt = nr_vecs` (`memset` at line 80 and
the assignments at lines 83-91). -/
def fresh_payload (nr_vecs : Nat) : BioIntegrityPayload :=
  { bip_vec := List.replicate nr_vecs zeroVec
    bip_iter := zeroIter
    bip_vcnt := 0
    bip_max_vcnt := nr_vecs
    bip_flags := {}
    bio_iter := zeroIter }

/-- `bio_integrity_alloc` (lines 58-104).  Heap / mempool success is the
oracle `alloc_ok`.  On success the payload is attached to the bio and also
returned (as the C function returns the `bip` pointer).  A bio carrying an
inline-encryption context is rejected with `-EOPNOTSUPP` before anything
is allocated or attached. -/
def bio_integrity_alloc (bio : Bio) (alloc_ok : Bool) (nr_vecs : Nat) :
    Except Err (Bio × BioIntegrityPayload) :=
  if bio.has_crypt_ctx then .error .EOPNOTSUPP
  else if alloc_ok = false then .error .ENOMEM
  else .ok ({ bio with bi_integrity := some (fresh_payload nr_vecs) },
    fresh_payload nr_vecs)

/-- The unconditional append of `bio_integrity_add_page` (lines 193-195):
write the new segment at slot `bip_vcnt`, bump the count, grow the cursor. -/
def bip_append (bip : BioIntegrityPayload) (page len offset : Nat) :
    BioIntegrityPayload :=
  { bip with
    bip_vec := bip.bip_vec.set bip.bip_vcnt ⟨page, len, offset⟩
    bip_vcnt := bip.bip_vcnt + 1
    bip_iter := { bip.bip_iter with bi_size := bip.bip_iter.bi_size + len } }

/-- `bio_integrity_add_page` (lines 165-198).  Returns the number of bytes
accepted together with the updated payload.  When the payload already has
a segment: first try the hardware merge (which extends the last segment),
then enforce the `min(bip_max_vcnt, queue_max_integrity_segments)` limit,
then the SG-gap restriction; otherwise append unconditionally. -/
def bio_integrity_add_page (q : Queue) (bip : BioIntegrityPayload)
    (page len offset : Nat) : Nat × BioIntegrityPayload :=
  if 0 < bip.bip_vcnt then
    let bv := bip.bip_vec.getD (bip.bip_vcnt - 1) zeroVec
    if q.try_merge_hw bv page len offset then
      (len, { bip with
        bip_vec := bip.bip_vec.set (bip.bip_vcnt - 1)
          ({ bv with bv_len := bv.bv_len + len })
        bip_iter := { bip.bip_iter with
          bi_size := bip.bip_iter.bi_size + len } })
    else if min bip.bip_max_vcnt q.max_integrity_segments ≤ bip.bip_vcnt then
      (0, bip)
    else if q.gap_to_prev bv offset then
      (0, bip)
    else
      (len, bip_append bip page len offset)
  else
    (len, bip_append bip page len offset)

/-- Inner loop of `bvec_from_pages` (lines 283-302), linearized: `cur` is
the segment being grown (its page is the first page of the run, used for
the folio check), `prev` the page merged last.  A page that is in the same
folio and physically consecutive extends `cur` by `min(PAGE_SIZE, bytes)`;
otherwise `cur` is emitted and a new run starts at the page with offset 0
and initial size `min(bytes, PAGE_SIZE)`. -/
def bvec_from_pages_go (fol : Nat → Nat) : BioVec → Nat → List Nat → Nat →
    List BioVec
  | cur, _, [], _ => [cur]
  | cur, prev, p :: ps, bytes =>
    if fol p == fol cur.bv_page && p == prev + 1 then
      bvec_from_pages_go fol
        { cur with bv_len := cur.bv_len + min PAGE_SIZE bytes } p ps
        (bytes - min PAGE_SIZE bytes)
    else
      cur :: bvec_from_pages_go fol ⟨p, min bytes PAGE_SIZE, 0⟩ p ps
        (bytes - min bytes PAGE_SIZE)

/-- `bvec_from_pages` (lines 277-305): coalesce physically contiguous page
runs into segments.  `fol` maps a physical page to its folio (modelled from
the spec's "coalesce physically contiguous page runs"). -/
def bvec_from_pages (fol : Nat → Nat) : List Nat → Nat → Nat → List BioVec
  | [], _, _ => []
  | p :: ps, bytes, offset =>
    let size0 := min bytes (PAGE_SIZE - offset)
    bvec_from_pages_go fol ⟨p, size0, offset⟩ p ps (bytes - size0)

/-- Allocation / memory-layout oracles consumed by the user mapper:
`pmap` is the page table (user virtual page → pinned physical page),
`fol` the folio map, `bounce_page`/`bounce_offset` where `kmalloc` places
the bounce buffer, and `buf_ok`/`bip_ok` the two allocation outcomes. -/
structure MapEnv where
  pmap : Nat → Nat
  fol : Nat → Nat
  bounce_page : Nat
  bounce_offset : Nat
  buf_ok : Bool
  bip_ok : Bool

/-- Modelled from the spec: `iov_iter_npages` for a plain user buffer —
number of pages spanned by `bytes` bytes starting at `ubuf`. -/
def iov_npages (ubuf bytes : Nat) : Nat :=
  (ubuf % PAGE_SIZE + bytes + PAGE_SIZE - 1) / PAGE_SIZE

/-- Modelled from the spec: the pinned physical pages backing the buffer
(`iov_iter_extract_pages`), via the page-table oracle. -/
def extracted_pages (pmap : Nat → Nat) (ubuf bytes : Nat) : List Nat :=
  (List.range (iov_npages ubuf bytes)).map (fun i => pmap (ubuf / PAGE_SIZE + i))

/-- Modelled from the spec: `iov_iter_is_aligned` — buffer address and
length are aligned to the device DMA alignment. -/
def iov_aligned (ubuf bytes align : Nat) : Bool :=
  ubuf % align == 0 && bytes % align == 0

/-- `bio_integrity_copy_user` (lines 201-259).  `bvec`/`nr_vecs` are the
pinned user segments, `len` the total byte length, `dir_write` whether the
data direction is `ITER_SOURCE`.  For a write the user data is copied into
the freshly allocated bounce buffer and the pages are released; for a read
the bounce is zeroed and the original segments are preserved at slots
`1 .. nr_vecs` for completion handling.  The bounce buffer becomes slot 0
via `bio_integrity_add_page`; finally `BIP_COPY_USER` is set, the seed is
stored and `bip_vcnt` is assigned `nr_vecs` (line 252).  The
`copy_from_iter_full` fault path cannot occur in this model (the pages are
pinned), so it is elided. -/
def bio_integrity_copy_user (q : Queue) (bio : Bio) (mem : Mem) (env : MapEnv)
    (bvec : List BioVec) (nr_vecs len : Nat) (dir_write : Bool) (seed : Nat) :
    Except Err (Bio × Mem) :=
  if env.buf_ok = false then .error .ENOMEM
  else
    let bounceAddrs := segAddrs ⟨env.bounce_page, len, env.bounce_offset⟩
    let mem1 : Mem :=
      if dir_write then
        writeList mem bounceAddrs (readList mem ((flatAddrs bvec).take len))
      else
        writeList mem bounceAddrs (List.replicate len 0)
    match bio_integrity_alloc bio env.bip_ok (if dir_write then 1 else nr_vecs + 1) with
    | .error e => .error e
    | .ok (bio1, bip0) =>
      let bip1 :=
        if dir_write then bip0
        else { bip0 with bip_vec :=
          bip0.bip_vec.take 1 ++ bvec.take nr_vecs ++
            bip0.bip_vec.drop (1 + nr_vecs) }
      let r := bio_integrity_add_page q bip1 env.bounce_page len env.bounce_offset
      if r.1 ≠ len then .error .ENOMEM
      else
        let bip2 := { r.2 with
          bip_flags := { r.2.bip_flags with copy_user := true }
          bip_iter := { r.2.bip_iter with bi_sector := seed }
          bip_vcnt := nr_vecs }
        .ok ({ bio1 with bi_integrity := some bip2 }, mem1)

/-- `bio_integrity_init_user` (lines 261-275): the zero-copy path — the
pinned user segments become the payload vector directly. -/
def bio_integrity_init_user (bio : Bio) (env : MapEnv) (bvec : List BioVec)
    (nr_vecs len seed : Nat) : Except Err Bio :=
  match bio_integrity_alloc bio env.bip_ok nr_vecs with
  | .error e => .error e
  | .ok (bio1, bip0) =>
    let bip1 := { bip0 with
      bip_vec := bvec.take nr_vecs ++ bip0.bip_vec.drop nr_vecs
      bip_iter := { bip0.bip_iter with bi_sector := seed, bi_size := len }
      bip_vcnt := nr_vecs }
    .ok { bio1 with bi_integrity := some bip1 }

/-- `bio_integrity_map_user` (lines 307-370).  Rejects a double attach and
oversized requests before touching memory, pins and coalesces the buffer
pages, then chooses the bounce-copy path when the buffer is not
DMA-aligned or the coalesced segment count exceeds the device limit, and
the zero-copy path otherwise. -/
def bio_integrity_map_user (q : Queue) (bio : Bio) (mem : Mem) (env : MapEnv)
    (ubuf bytes seed : Nat) : Except Err (Bio × Mem) :=
  if bio.bi_integrity.isSome then .error .EINVAL
  else if q.max_hw_sectors < bytes / 2 ^ SECTOR_SHIFT then .error .E2BIG
  else
    let dir_write := !(bio_data_dir_read bio)
    let nr_vecs := iov_npages ubuf bytes
    if BIO_MAX_VECS < nr_vecs then .error .E2BIG
    else
      let copy0 := !(iov_aligned ubuf bytes q.dma_alignment)
      let pages := extracted_pages env.pmap ubuf bytes
      let bvec := bvec_from_pages env.fol pages bytes (ubuf % PAGE_SIZE)
      let copy := copy0 || decide (q.max_integrity_segments < bvec.length)
      if copy then
        bio_integrity_copy_user q bio mem env bvec bvec.length bytes dir_write seed
      else
        match bio_integrity_init_user bio env bvec bvec.length bytes seed with
        | .error e => .error e
        | .ok bio1 => .ok (bio1, mem)

/-- Observable side effects of the unmap path. -/
inductive UEvent
  | copy_back
  | unpin (dirty : Bool) (v : BioVec)
  | free_bounce
deriving DecidableEq

/-- `bio_integrity_unpin_bvec` (lines 107-117) as its event trace. -/
def bio_integrity_unpin_bvec (dirty : Bool) (bvs : List BioVec) : List UEvent :=
  bvs.map (fun v => UEvent.unpin dirty v)

/-- `bio_integrity_uncopy_user` (lines 119-133): copy the bounce buffer
(slot 0) back into the `bip_max_vcnt - 1` original segments recorded at
slots `1 ..`, then dirty and unpin those pages. -/
def bio_integrity_uncopy_user (bip : BioIntegrityPayload) (mem : Mem) :
    Mem × List UEvent :=
  let orig_nr := bip.bip_max_vcnt - 1
  let origs := (bip.bip_vec.drop 1).take orig_nr
  let bounce := bip.bip_vec.headD zeroVec
  let bytes := bounce.bv_len
  let data := readList mem (segAddrs bounce)
  let mem1 := writeList mem ((flatAddrs origs).take bytes) data
  (mem1, UEvent.copy_back :: bio_integrity_unpin_bvec true origs)

/-- `bio_integrity_unmap_user` (lines 141-154).  Copy mode: write the
bounce back for reads, then free the bounce buffer.  Zero copy: unpin all
segments, dirtying pages only for reads.  (Never called without a payload;
the `none` branch is unreachable.) -/
def bio_integrity_unmap_user (bio : Bio) (mem : Mem) : Mem × List UEvent :=
  match bio.bi_integrity with
  | none => (mem, [])
  | some bip =>
    if bip.bip_flags.copy_user then
      if bio_data_dir_read bio then
        let r := bio_integrity_uncopy_user bip mem
        (r.1, r.2 ++ [UEvent.free_bounce])
      else (mem, [UEvent.free_bounce])
    else
      (mem, bio_integrity_unpin_bvec (bio_data_dir_read bio)
        (bip.bip_vec.take bip.bip_max_vcnt))

/-- Observable side effects of preparation. -/
inductive PEvent
  | generate
  | end_bio
deriving DecidableEq

/-- Allocation oracles for `bio_integrity_prep`: kernel-buffer allocation
outcome, payload allocation outcome, and where `kmalloc` places the
protection-data buffer. -/
structure PrepEnv where
  buf_ok : Bool
  bip_ok : Bool
  buf_page : Nat
  buf_offset : Nat

/-- The `err_end_io` exit of `bio_integrity_prep` (lines 455-458): mark the
bio failed with `BLK_STS_RESOURCE`, signal completion, return `false`. -/
def prep_fail (bio : Bio) : Bool × Bio × List PEvent :=
  (false, { bio with bi_status := BLK_STS_RESOURCE }, [PEvent.end_bio])

/-- Body of `bio_integrity_prep` after the pass-through checks
(lines 423-453): allocate the protection buffer and a one-segment payload,
tag it (`BIP_BLOCK_INTEGRITY`, seed, `BIP_IP_CHECKSUM`), attach the buffer
via `bio_integrity_add_page`, then generate (write) or save the data
iterator (read). -/
def bio_integrity_prep_body (q : Queue) (bi : BlkIntegrity) (env : PrepEnv)
    (bio : Bio) : Bool × Bio × List PEvent :=
  let len := bio_integrity_bytes bi (bio_sectors bio)
  if env.buf_ok = false then prep_fail bio
  else
    match bio_integrity_alloc bio env.bip_ok 1 with
    | .error _ => prep_fail bio
    | .ok (bio1, bip0) =>
        let bip1 := { bip0 with
          bip_flags := { bip0.bip_flags with
            block_integrity := true
            ip_checksum := bi.csum_type == CsumType.ip }
          bip_iter := { bip0.bip_iter with
            bi_sector := bio.bi_iter.bi_sector } }
        let r := bio_integrity_add_page q bip1 env.buf_page len env.buf_offset
        if r.1 < len then prep_fail ({ bio1 with bi_integrity := some r.2 })
        else if bio.bi_op == BioOp.write then
          (true, { bio1 with bi_integrity := some r.2 }, [PEvent.generate])
        else
          let bip2 := { r.2 with bio_iter := bio.bi_iter }
          (true, { bio1 with bi_integrity := some bip2 }, [])

/-- `bio_integrity_prep` (lines 384-459).  Pass-through (`true`, nothing
attached) when there is no integrity profile, the bio has no sectors, a
payload is already attached, the profile disables the operation for this
direction, or the opcode is neither read nor write; otherwise run the
allocation body. -/
def bio_integrity_prep (q : Queue) (obi : Option BlkIntegrity) (env : PrepEnv)
    (bio : Bio) : Bool × Bio × List PEvent :=
  match obi with
  | none => (true, bio, [])
  | some bi =>
    if bio_sectors bio == 0 then (true, bio, [])
    else if bio.bi_integrity.isSome then (true, bio, [])
    else
      match bio.bi_op with
      | BioOp.other => (true, bio, [])
      | BioOp.read =>
        if bi.noverify then (true, bio, [])
        else bio_integrity_prep_body q bi env bio
      | BioOp.write =>
        if bi.nogenerate then (true, bio, [])
        else bio_integrity_prep_body q bi env bio

/-- Observable side effects of the completion pipeline. -/
inductive CEvent
  | queue_verify
  | verify
  | free_buf
  | free_payload
  | end_bio
deriving DecidableEq

/-- `bio_integrity_verify_fn` (lines 470-481): the deferred worker invokes
the verifier, frees the protection buffer, releases the payload and then
signals the bio's completion. -/
def bio_integrity_verify_fn (bio : Bio) : Bio × List CEvent :=
  ({ bio with bi_integrity := none },
   [CEvent.verify, CEvent.free_buf, CEvent.free_payload, CEvent.end_bio])

/-- `__bio_integrity_endio` (lines 494-508).  A read that completed
without error on a profile with a checksum kind defers verification
(returns `false`: do not complete now); every other case frees the
protection buffer and the payload synchronously and returns `true`. -/
def bio_integrity_endio_result (bi : BlkIntegrity) (bio : Bio) :
    Bool × Bio × List CEvent :=
  if bio.bi_op == BioOp.read && bio.bi_status == 0 &&
      !(bi.csum_type == CsumType.none) then
    (false, bio, [CEvent.queue_verify])
  else
    (true, { bio with bi_integrity := none },
     [CEvent.free_buf, CEvent.free_payload])

/-- `bio_integrity_clone` (lines 552-569): allocate a zero-segment payload
shell for the destination, then share the source's segment vector and
cursor, copying the flags minus `BIP_BLOCK_INTEGRITY`.  (`BUG_ON` when the
source has no payload; that branch is unreachable for callers.) -/
def bio_integrity_clone (bio bio_src : Bio) (alloc_ok : Bool) :
    Except Err Bio :=
  match bio_src.bi_integrity with
  | none => .error .EINVAL
  | some src =>
    match bio_integrity_alloc bio alloc_ok 0 with
    | .error e => .error e
    | .ok (bio1, bip0) =>
      let bip1 := { bip0 with
        bip_vec := src.bip_vec
        bip_iter := src.bip_iter
        bip_flags := { src.bip_flags with block_integrity := false } }
      .ok { bio1 with bi_integrity := some bip1 }

/-! Concrete device limits, bios and oracles used to exercise the model. -/

/-- A queue: 8 integrity segments, 256 hw sectors, DMA alignment 4, a
device that never hardware-merges and imposes no SG gap restriction. -/
def exQ : Queue :=
  { max_integrity_segments := 8
    max_hw_sectors := 256
    dma_alignment := 4
    try_merge_hw := fun _ _ _ _ => false
    gap_to_prev := fun _ _ => false }

/-- A queue whose device reports zero usable integrity segments. -/
def exQ0 : Queue :=
  { max_integrity_segments := 0
    max_hw_sectors := 0
    dma_alignment := 1
    try_merge_hw := fun _ _ _ _ => false
    gap_to_prev := fun _ _ => false }

/-- A fresh write bio with no payload attached. -/
def exBioW : Bio :=
  { bi_op := BioOp.write, bi_status := 0, bi_iter := zeroIter
    bi_integrity := none, has_crypt_ctx := false }

/-- All-zero memory. -/
def exMem : Mem := fun _ => 0

/-- Mapping oracles: user pages 0 and 1 pin to the non-contiguous
physical pages 10 and 20, every page its own folio, the bounce buffer at
page 99 offset 0, both allocations succeed. -/
def exEnv : MapEnv :=
  { pmap := fun i => if i == 0 then 10 else 20
    fol := fun p => p
    bounce_page := 99
    bounce_offset := 0
    buf_ok := true
    bip_ok := true }

/-- A one-segment payload with one free slot (capacity 2). -/
def exBip1 : BioIntegrityPayload :=
  { bip_vec := [⟨1, 8, 0⟩, zeroVec], bip_iter := ⟨0, 8, 0, 0⟩
    bip_vcnt := 1, bip_max_vcnt := 2, bip_flags := {}, bio_iter := zeroIter }

/-- An empty one-slot payload, as `bio_integrity_prep` allocates. -/
def exBip0 : BioIntegrityPayload :=
  { bip_vec := [zeroVec], bip_iter := zeroIter
    bip_vcnt := 0, bip_max_vcnt := 1, bip_flags := {}, bio_iter := zeroIter }

/-- A copy-mode read/write payload: bounce of 4 bytes at slot 0, the two
pinned 2-byte user segments at slots 1 and 2, `bip_max_vcnt = 3`. -/
def exBipCopy : BioIntegrityPayload :=
  { bip_vec := [⟨50, 4, 0⟩, ⟨1, 2, 100⟩, ⟨2, 2, 0⟩], bip_iter := ⟨9, 4, 0, 0⟩
    bip_vcnt := 2, bip_max_vcnt := 3
    bip_flags := { copy_user := true }, bio_iter := zeroIter }

/-- A read bio carrying the copy-mode payload. -/
def exBioRCopy : Bio :=
  { bi_op := BioOp.read, bi_status := 0, bi_iter := zeroIter
    bi_integrity := some exBipCopy, has_crypt_ctx := false }

/-- A write bio carrying the copy-mode payload. -/
def exBioWCopy : Bio :=
  { bi_op := BioOp.write, bi_status := 0, bi_iter := zeroIter
    bi_integrity := some exBipCopy, has_crypt_ctx := false }

/-- Non-trivial memory contents. -/
def exMemV : Mem := fun a => a % 256

/-- An integrity profile with CRC checksums, 8-byte tuples, one checksum
per sector, verification and generation enabled. -/
def exBI : BlkIntegrity :=
  { csum_type := CsumType.crc, noverify := false, nogenerate := false
    tuple_size := 8, sectors_per_interval := 1 }

/-- Prep oracles: both allocations succeed, buffer at page 77 offset 0. -/
def exPrepEnv : PrepEnv :=
  { buf_ok := true, bip_ok := true, buf_page := 77, buf_offset := 0 }

/-- Prep oracles with a failing kernel-buffer allocation. -/
def exPrepEnvNoBuf : PrepEnv :=
  { buf_ok := false, bip_ok := true, buf_page := 77, buf_offset := 0 }

/-- A fresh 8-sector (4096-byte) write bio starting at sector 100. -/
def exBioW8 : Bio :=
  { bi_op := BioOp.write, bi_status := 0, bi_iter := ⟨100, 4096, 0, 0⟩
    bi_integrity := none, has_crypt_ctx := false }

/-- A fresh 8-sector read bio starting at sector 100. -/
def exBioR8 : Bio :=
  { bi_op := BioOp.read, bi_status := 0, bi_iter := ⟨100, 4096, 0, 0⟩
    bi_integrity := none, has_crypt_ctx := false }

/-- An 8-sector discard-like bio: an opcode that is neither a read nor a
write, carrying sectors, with no payload attached. -/
def exBioOther : Bio :=
  { bi_op := BioOp.other, bi_status := 0, bi_iter := ⟨100, 4096, 0, 0⟩
    bi_integrity := none, has_crypt_ctx := false }

/-- A bio carrying an inline-encryption context. -/
def exBioCrypt : Bio :=
  { bi_op := BioOp.write, bi_status := 0, bi_iter := ⟨0, 4096, 0, 0⟩
    bi_integrity := none, has_crypt_ctx := true }

/-- The bio produced by zero-copy mapping 8 aligned bytes of user page 0
(pinned to physical page 10) with seed 5 onto `exBioW` under `exQ`. -/
def exBioZC : Bio :=
  { bi_op := BioOp.write, bi_status := 0, bi_iter := zeroIter
    bi_integrity := some
      { bip_vec := [⟨10, 8, 0⟩], bip_iter := ⟨5, 8, 0, 0⟩
        bip_vcnt := 1, bip_max_vcnt := 1, bip_flags := {}
        bio_iter := zeroIter }
    has_crypt_ctx := false }

/-! Claim theorems. -/

/-- A successful `bio_integrity_alloc` yields exactly the bio with the
fresh `nr_vecs`-slot payload attached, together with that payload. -/
theorem bio_integrity_alloc_ok (bio : Bio) (alloc_ok : Bool) (nr_vecs : Nat)
    (pr : Bio × BioIntegrityPayload)
    (h : bio_integrity_alloc bio alloc_ok nr_vecs = .ok pr) :
    pr = ({ bio with bi_integrity := some (fresh_payload nr_vecs) },
      fresh_payload nr_vecs) := by
  simp only [bio_integrity_alloc] at h
  split at h
  · exact absurd h (by simp)
  · split at h
    · exact absurd h (by simp)
    · simp only [Except.ok.injEq] at h
      exact h.symm

/-- Any payload successfully attached by `bio_integrity_copy_user`
carries `BIP_COPY_USER` and has `bip_vcnt = nr_vecs`. -/
theorem bio_integrity_copy_user_flag (q : Queue) (bio : Bio) (mem : Mem)
    (env : MapEnv) (bvec : List BioVec) (nr_vecs len : Nat) (dir_write : Bool)
    (seed : Nat) (bio' : Bio) (mem' : Mem)
    (h : bio_integrity_copy_user q bio mem env bvec nr_vecs len dir_write
      seed = .ok (bio', mem')) :
    ∃ bip, bio'.bi_integrity = some bip ∧ bip.bip_flags.copy_user = true ∧
      bip.bip_vcnt = nr_vecs := by
  simp only [bio_integrity_copy_user] at h
  split at h
  · exact absurd h (by simp)
  · rcases halloc : bio_integrity_alloc bio env.bip_ok
        (if dir_write then 1 else nr_vecs + 1) with e | pr
    · rw [halloc] at h
      exact absurd h (by simp)
    · rw [halloc] at h
      obtain rfl := bio_integrity_alloc_ok _ _ _ _ halloc
      simp only at h
      split at h <;> split at h
      · exact absurd h (by simp)
      · simp only [Except.ok.injEq, Prod.mk.injEq] at h
        rw [← h.1]
        exact ⟨_, rfl, rfl, rfl⟩
      · exact absurd h (by simp)
      · simp only [Except.ok.injEq, Prod.mk.injEq] at h
        rw [← h.1]
        exact ⟨_, rfl, rfl, rfl⟩

/-- The payload attached by a successful `bio_integrity_init_user` is the
coalesced user vector itself, with all flags clear. -/
theorem bio_integrity_init_user_result (bio : Bio) (env : MapEnv)
    (bvec : List BioVec) (nr_vecs len seed : Nat) (bio' : Bio)
    (h : bio_integrity_init_user bio env bvec nr_vecs len seed = .ok bio') :
    ∃ bip, bio'.bi_integrity = some bip ∧ bip.bip_flags = {} ∧
      bip.bip_vec = bvec.take nr_vecs ++
        (List.replicate nr_vecs zeroVec).drop nr_vecs ∧
      bip.bip_vcnt = nr_vecs ∧
      bip.bip_iter = ⟨seed, len, 0, 0⟩ := by
  simp only [bio_integrity_init_user] at h
  rcases halloc : bio_integrity_alloc bio env.bip_ok nr_vecs with e | pr
  · rw [halloc] at h
    exact absurd h (by simp)
  · rw [halloc] at h
    obtain rfl := bio_integrity_alloc_ok _ _ _ _ halloc
    simp only [Except.ok.injEq] at h
    rw [← h]
    exact ⟨_, rfl, rfl, rfl, rfl, rfl⟩

/-- C10: for every request that carries an inline-encryption (crypt)
context, payload allocation fails with an operation-not-supported error
and (the call returning an error) no payload is attached to the request:
integrity metadata and inline encryption are mutually exclusive. -/
theorem claim_C10_crypt_ctx (bio : Bio) (alloc_ok : Bool) (nr_vecs : Nat)
    (h : bio.has_crypt_ctx = true) :
    bio_integrity_alloc bio alloc_ok nr_vecs = .error .EOPNOTSUPP := by
  simp [bio_integrity_alloc, h]

/-- Witness for C10 at a concrete crypt-carrying bio. -/
theorem claim_C10_witness :
    bio_integrity_alloc exBioCrypt true 1 = .error .EOPNOTSUPP :=
  claim_C10_crypt_ctx exBioCrypt true 1 (by decide)

/-- C2 (amended): `addSegment` merges into the last segment when the
device hardware-merge check passes (returning `len`, growing
`bytes_remaining`, keeping `segment_count`); when the payload already has
at least one segment it returns `0` unchanged if the segment count has
reached `min(max_segments, device max integrity segments)` or appending
would create a disallowed gap; in every other case — including an empty
payload, where none of the checks are applied — it appends a new segment,
incrementing `segment_count` and `bytes_remaining` and returning `len`. -/
theorem claim_C2_addSegment (q : Queue) (bip : BioIntegrityPayload)
    (page len offset : Nat) :
    (0 < bip.bip_vcnt →
      q.try_merge_hw (bip.bip_vec.getD (bip.bip_vcnt - 1) zeroVec) page len offset = true →
      (bio_integrity_add_page q bip page len offset).1 = len ∧
      (bio_integrity_add_page q bip page len offset).2.bip_vcnt = bip.bip_vcnt ∧
      (bio_integrity_add_page q bip page len offset).2.bip_iter.bi_size =
        bip.bip_iter.bi_size + len) ∧
    (0 < bip.bip_vcnt →
      q.try_merge_hw (bip.bip_vec.getD (bip.bip_vcnt - 1) zeroVec) page len offset = false →
      min bip.bip_max_vcnt q.max_integrity_segments ≤ bip.bip_vcnt →
      bio_integrity_add_page q bip page len offset = (0, bip)) ∧
    (0 < bip.bip_vcnt →
      q.try_merge_hw (bip.bip_vec.getD (bip.bip_vcnt - 1) zeroVec) page len offset = false →
      bip.bip_vcnt < min bip.bip_max_vcnt q.max_integrity_segments →
      q.gap_to_prev (bip.bip_vec.getD (bip.bip_vcnt - 1) zeroVec) offset = true →
      bio_integrity_add_page q bip page len offset = (0, bip)) ∧
    ((bip.bip_vcnt = 0 ∨
      (0 < bip.bip_vcnt ∧
        q.try_merge_hw (bip.bip_vec.getD (bip.bip_vcnt - 1) zeroVec) page len offset = false ∧
        bip.bip_vcnt < min bip.bip_max_vcnt q.max_integrity_segments ∧
        q.gap_to_prev (bip.bip_vec.getD (bip.bip_vcnt - 1) zeroVec) offset = false)) →
      bio_integrity_add_page q bip page len offset = (len, bip_append bip page len offset)) := by
  refine ⟨?_, ?_, ?_, ?_⟩
  · intro h hm
    simp only [bio_integrity_add_page]
    rw [if_pos h, if_pos hm]
    exact ⟨rfl, rfl, rfl⟩
  · intro h hm hlim
    simp only [bio_integrity_add_page]
    rw [if_pos h, if_neg (by simpa using hm), if_pos hlim]
  · intro h hm hlim hgap
    simp only [bio_integrity_add_page]
    rw [if_pos h, if_neg (by simpa using hm), if_neg (Nat.not_le.mpr hlim),
      if_pos hgap]
  · rintro (h | ⟨h, hm, hlim, hgap⟩)
    · simp only [bio_integrity_add_page]
      rw [if_neg (by omega)]
    · simp only [bio_integrity_add_page]
      rw [if_pos h, if_neg (by simpa using hm), if_neg (Nat.not_le.mpr hlim),
        if_neg (by simpa using hgap)]

/-- Witness for C2 at a concrete one-segment payload with a free slot:
the device refuses the hardware merge, the limit is not reached and there
is no gap, so the segment is appended. -/
theorem claim_C2_witness :
    bio_integrity_add_page exQ exBip1 7 8 0 = (8, bip_append exBip1 7 8 0) :=
  (claim_C2_addSegment exQ exBip1 7 8 0).2.2.2 (Or.inr (by decide))

/-- Counterexample to C2 as stated: on an *empty* payload the code never
consults the `min(max_segments, device max integrity segments)` limit.
Here `segment_count = 0` is already at `min(1, 0) = 0` — the claim says
the call must return `0` and leave the payload unchanged — yet the call
accepts all 512 bytes and appends a segment. -/
theorem claim_C2_counterexample :
    (bio_integrity_add_page exQ0 exBip0 7 512 0).1 = 512 ∧
    (bio_integrity_add_page exQ0 exBip0 7 512 0).2.bip_vcnt = 1 ∧
    min exBip0.bip_max_vcnt exQ0.max_integrity_segments ≤ exBip0.bip_vcnt := by
  decide

/-- C4: completion defers (returns `false`, scheduling the verification
task, freeing nothing) exactly when the request is a read that completed
without error on a profile with a checksum kind; otherwise it synchronously
frees the working buffer and the payload and returns `true` (`FinishNow`);
and the deferred task invokes the verifier, frees the working buffer,
releases the payload and then signals the request's completion, in that
order. -/
theorem claim_C4_completion (bi : BlkIntegrity) (bio : Bio) :
    ((bio_integrity_endio_result bi bio).1 = false ↔
      (bio.bi_op = BioOp.read ∧ bio.bi_status = 0 ∧ bi.csum_type ≠ CsumType.none)) ∧
    ((bio.bi_op = BioOp.read ∧ bio.bi_status = 0 ∧ bi.csum_type ≠ CsumType.none) →
      bio_integrity_endio_result bi bio = (false, bio, [CEvent.queue_verify])) ∧
    (¬(bio.bi_op = BioOp.read ∧ bio.bi_status = 0 ∧ bi.csum_type ≠ CsumType.none) →
      bio_integrity_endio_result bi bio =
        (true, { bio with bi_integrity := none },
         [CEvent.free_buf, CEvent.free_payload])) ∧
    bio_integrity_verify_fn bio =
      ({ bio with bi_integrity := none },
       [CEvent.verify, CEvent.free_buf, CEvent.free_payload, CEvent.end_bio]) := by
  have hcond : ((bio.bi_op == BioOp.read && bio.bi_status == 0 &&
      !(bi.csum_type == CsumType.none)) = true) ↔
      (bio.bi_op = BioOp.read ∧ bio.bi_status = 0 ∧
        bi.csum_type ≠ CsumType.none) := by
    simp [and_assoc]
  refine ⟨?_, ?_, ?_, rfl⟩
  · by_cases hc : bio.bi_op = BioOp.read ∧ bio.bi_status = 0 ∧
        bi.csum_type ≠ CsumType.none <;>
      simp [bio_integrity_endio_result, hcond, hc]
  · intro hc
    simp [bio_integrity_endio_result, hcond, hc]
  · intro hc
    simp [bio_integrity_endio_result, hcond, hc]

/-- Witness for C4: a clean read on a CRC profile defers verification. -/
theorem claim_C4_witness :
    bio_integrity_endio_result exBI exBioR8 =
      (false, exBioR8, [CEvent.queue_verify]) :=
  (claim_C4_completion exBI exBioR8).2.1 ⟨rfl, rfl, by decide⟩

/-- C9: a successful clone attaches to the destination a payload shell
allocated with zero segments (`bip_max_vcnt = 0`, `bip_vcnt = 0`, so no
segment array is allocated) whose segment vector and progress cursor are
the source's, and whose flags equal the source's flags with the
auto-generated (`BIP_BLOCK_INTEGRITY`) flag cleared. -/
theorem claim_C9_clone (bio bio_src : Bio) (src : BioIntegrityPayload)
    (alloc_ok : Bool) (hsrc : bio_src.bi_integrity = some src)
    (hcrypt : bio.has_crypt_ctx = false) (hok : alloc_ok = true) :
    ∃ bip, bio_integrity_clone bio bio_src alloc_ok =
        .ok { bio with bi_integrity := some bip } ∧
      bip.bip_vcnt = 0 ∧ bip.bip_max_vcnt = 0 ∧
      bip.bip_vec = src.bip_vec ∧ bip.bip_iter = src.bip_iter ∧
      bip.bip_flags = { src.bip_flags with block_integrity := false } := by
  subst hok
  refine ⟨{ bip_vec := src.bip_vec, bip_iter := src.bip_iter, bip_vcnt := 0,
            bip_max_vcnt := 0,
            bip_flags := { src.bip_flags with block_integrity := false },
            bio_iter := zeroIter }, ?_, rfl, rfl, rfl, rfl, rfl⟩
  simp [bio_integrity_clone, hsrc, bio_integrity_alloc, hcrypt, fresh_payload]

/-- Witness for C9: cloning a write bio's copy-mode payload onto a fresh
bio. -/
theorem claim_C9_witness :
    ∃ bip, bio_integrity_clone exBioW exBioWCopy true =
        .ok { exBioW with bi_integrity := some bip } ∧
      bip.bip_vcnt = 0 ∧ bip.bip_max_vcnt = 0 ∧
      bip.bip_vec = exBipCopy.bip_vec ∧ bip.bip_iter = exBipCopy.bip_iter ∧
      bip.bip_flags = { exBipCopy.bip_flags with block_integrity := false } :=
  claim_C9_clone exBioW exBioWCopy exBipCopy true rfl rfl rfl

/-- C6: when preparation is actually attempted (profile bound, sectors
present, nothing attached, direction enabled) and either the protection
buffer allocation or the payload allocation fails, `bio_integrity_prep`
sets the bio's status to `BLK_STS_RESOURCE`, signals the bio's completion
immediately, and returns `false` so the caller does not proceed. -/
theorem claim_C6_prep_alloc_failure (q : Queue) (bi : BlkIntegrity)
    (env : PrepEnv) (bio : Bio) (hcrypt : bio.has_crypt_ctx = false)
    (hsec : bio_sectors bio ≠ 0) (hnb : bio.bi_integrity = none)
    (hop : (bio.bi_op = BioOp.read ∧ bi.noverify = false) ∨
           (bio.bi_op = BioOp.write ∧ bi.nogenerate = false))
    (hfail : env.buf_ok = false ∨ env.bip_ok = false) :
    bio_integrity_prep q (some bi) env bio =
      (false, { bio with bi_status := BLK_STS_RESOURCE }, [PEvent.end_bio]) := by
  have hbody : bio_integrity_prep_body q bi env bio =
      (false, { bio with bi_status := BLK_STS_RESOURCE }, [PEvent.end_bio]) := by
    rcases hfail with hf | hf
    · simp [bio_integrity_prep_body, hf, prep_fail]
    · cases hb : env.buf_ok
      · simp [bio_integrity_prep_body, hb, prep_fail]
      · simp [bio_integrity_prep_body, hb, hf, bio_integrity_alloc, hcrypt,
          prep_fail]
  rcases hop with ⟨h1, h2⟩ | ⟨h1, h2⟩ <;>
    simp [bio_integrity_prep, hsec, hnb, h1, h2, hbody]

/-- Witness for C6: a buffer-allocation failure on an 8-sector write. -/
theorem claim_C6_witness :
    bio_integrity_prep exQ (some exBI) exPrepEnvNoBuf exBioW8 =
      (false, { exBioW8 with bi_status := BLK_STS_RESOURCE },
       [PEvent.end_bio]) :=
  claim_C6_prep_alloc_failure exQ exBI exPrepEnvNoBuf exBioW8 rfl
    (by decide) rfl (Or.inr ⟨rfl, rfl⟩) (Or.inl rfl)

/-- C8: `mapUserBuffer` rejects a request with a payload already attached
with `-EINVAL`, and a buffer implying more data sectors than the device's
max hardware sectors with `-E2BIG`, in both cases before any allocation or
page pinning (the result does not depend on the allocation and mapping
oracles, and an error return leaves the bio and memory unchanged). -/
theorem claim_C8_map_user_rejects (q : Queue) (bio : Bio) (mem : Mem)
    (env : MapEnv) (ubuf bytes seed : Nat) :
    (bio.bi_integrity.isSome = true →
      bio_integrity_map_user q bio mem env ubuf bytes seed = .error .EINVAL) ∧
    (bio.bi_integrity = none →
      q.max_hw_sectors < bytes / 2 ^ SECTOR_SHIFT →
      bio_integrity_map_user q bio mem env ubuf bytes seed = .error .E2BIG) := by
  constructor
  · intro h
    simp [bio_integrity_map_user, h]
  · intro h hbig
    simp [bio_integrity_map_user, h, hbig]

/-- Witness for C8: a double attach and a 1 MiB buffer on a 256-sector
device are rejected with the respective errors. -/
theorem claim_C8_witness :
    bio_integrity_map_user exQ exBioWCopy exMem exEnv 0 8 5 =
      .error .EINVAL ∧
    bio_integrity_map_user exQ exBioW exMem exEnv 0 1048576 5 =
      .error .E2BIG :=
  ⟨(claim_C8_map_user_rejects exQ exBioWCopy exMem exEnv 0 8 5).1 rfl,
   (claim_C8_map_user_rejects exQ exBioW exMem exEnv 0 1048576 5).2 rfl
     (by decide)⟩

/-- C3: for every successfully mapped user buffer, the zero-copy path
(`BIP_COPY_USER` clear, pinned user segments used directly as the payload
vector) is taken iff the buffer address and length are aligned to the
device DMA alignment and the coalesced segment count does not exceed the
device's max integrity segments; otherwise the attached payload has
`BIP_COPY_USER` set. -/
theorem claim_C3_zero_copy_iff (q : Queue) (bio : Bio) (mem : Mem)
    (env : MapEnv) (ubuf bytes seed : Nat) (bio' : Bio)
    (hok : (bio_integrity_map_user q bio mem env ubuf bytes seed).toOption.map
      Prod.fst = some bio') :
    ∃ bip, bio'.bi_integrity = some bip ∧
      (bip.bip_flags.copy_user = false ↔
        (iov_aligned ubuf bytes q.dma_alignment = true ∧
          (bvec_from_pages env.fol (extracted_pages env.pmap ubuf bytes) bytes
            (ubuf % PAGE_SIZE)).length ≤ q.max_integrity_segments)) ∧
      (bip.bip_flags.copy_user = false →
        bip.bip_vec = bvec_from_pages env.fol (extracted_pages env.pmap ubuf bytes)
          bytes (ubuf % PAGE_SIZE) ∧
        bip.bip_vcnt = (bvec_from_pages env.fol (extracted_pages env.pmap ubuf bytes)
          bytes (ubuf % PAGE_SIZE)).length) := by
  simp only [bio_integrity_map_user] at hok
  split at hok
  · exact absurd hok (by simp [Except.toOption])
  · split at hok
    · exact absurd hok (by simp [Except.toOption])
    · split at hok
      · exact absurd hok (by simp [Except.toOption])
      · split at hok
        case isTrue hcopy =>
          rcases hc : bio_integrity_copy_user q bio mem env
              (bvec_from_pages env.fol (extracted_pages env.pmap ubuf bytes)
                bytes (ubuf % PAGE_SIZE))
              (bvec_from_pages env.fol (extracted_pages env.pmap ubuf bytes)
                bytes (ubuf % PAGE_SIZE)).length
              bytes (!bio_data_dir_read bio) seed with e | pr
          · rw [hc] at hok
            exact absurd hok (by simp [Except.toOption])
          · rw [hc] at hok
            simp only [Except.toOption, Option.map_some', Option.some.injEq] at hok
            obtain ⟨bip, hbip, hflag, _⟩ :=
              bio_integrity_copy_user_flag _ _ _ _ _ _ _ _ _ pr.1 pr.2
                (by rw [hc])
            refine ⟨bip, by rw [← hok]; exact hbip, ?_, ?_⟩
            · constructor
              · intro hf
                rw [hflag] at hf
                cases hf
              · rintro ⟨hal, hle⟩
                exfalso
                rw [hal] at hcopy
                simp at hcopy
                exact absurd hcopy (Nat.not_lt.mpr hle)
            · intro hf
              rw [hflag] at hf
              cases hf
        case isFalse hcopy =>
          cases hala : iov_aligned ubuf bytes q.dma_alignment
          case false =>
            exact absurd (by rw [hala]; rfl) hcopy
          case true =>
          have hle : (bvec_from_pages env.fol (extracted_pages env.pmap ubuf bytes)
              bytes (ubuf % PAGE_SIZE)).length ≤ q.max_integrity_segments := by
            by_contra hx
            exact hcopy (by simp [hala, Nat.not_le.mp hx])
          rcases hi : bio_integrity_init_user bio env
              (bvec_from_pages env.fol (extracted_pages env.pmap ubuf bytes)
                bytes (ubuf % PAGE_SIZE))
              (bvec_from_pages env.fol (extracted_pages env.pmap ubuf bytes)
                bytes (ubuf % PAGE_SIZE)).length
              bytes seed with e | bio1
          · rw [hi] at hok
            exact absurd hok (by simp [Except.toOption])
          · rw [hi] at hok
            simp only [Except.toOption, Option.map_some', Option.some.injEq] at hok
            obtain ⟨bip, hbip, hflags, hvec, hvcnt, _⟩ :=
              bio_integrity_init_user_result _ _ _ _ _ _ _ hi
            refine ⟨bip, by rw [← hok]; exact hbip, ?_, ?_⟩
            · rw [hflags]
              simp [hala, hle]
            · intro _
              rw [hvec, hvcnt]
              simp

/-- Witness for C3: an aligned single-page buffer maps zero-copy. -/
theorem claim_C3_witness :
    ∃ bip, exBioZC.bi_integrity = some bip ∧
      (bip.bip_flags.copy_user = false ↔
        (iov_aligned 0 8 exQ.dma_alignment = true ∧
          (bvec_from_pages exEnv.fol (extracted_pages exEnv.pmap 0 8) 8
            (0 % PAGE_SIZE)).length ≤ exQ.max_integrity_segments)) ∧
      (bip.bip_flags.copy_user = false →
        bip.bip_vec = bvec_from_pages exEnv.fol (extracted_pages exEnv.pmap 0 8)
          8 (0 % PAGE_SIZE) ∧
        bip.bip_vcnt = (bvec_from_pages exEnv.fol (extracted_pages exEnv.pmap 0 8)
          8 (0 % PAGE_SIZE)).length) :=
  claim_C3_zero_copy_iff exQ exBioW exMem exEnv 0 8 5 exBioZC (by decide)

/-- The successful allocation body of `bio_integrity_prep`: with both
allocations live and no crypt context, it attaches a one-segment payload
holding the protection buffer of `bio_integrity_bytes` bytes, seeded with
the bio's starting sector, tagged `BIP_BLOCK_INTEGRITY` (and
`BIP_IP_CHECKSUM` for an IP profile), then generates for writes and saves
the bio's iterator otherwise. -/
theorem bio_integrity_prep_body_ok (q : Queue) (bi : BlkIntegrity)
    (env : PrepEnv) (bio : Bio) (hbuf : env.buf_ok = true)
    (hbip : env.bip_ok = true) (hcrypt : bio.has_crypt_ctx = false) :
    bio_integrity_prep_body q bi env bio =
      (if bio.bi_op == BioOp.write then
        (true,
         { bio with bi_integrity := some ⟨[⟨env.buf_page,
             bio_integrity_bytes bi (bio_sectors bio), env.buf_offset⟩],
           ⟨bio.bi_iter.bi_sector, bio_integrity_bytes bi (bio_sectors bio), 0, 0⟩,
           1, 1, ⟨false, true, bi.csum_type == CsumType.ip⟩, zeroIter⟩ },
         [PEvent.generate])
      else
        (true,
         { bio with bi_integrity := some ⟨[⟨env.buf_page,
             bio_integrity_bytes bi (bio_sectors bio), env.buf_offset⟩],
           ⟨bio.bi_iter.bi_sector, bio_integrity_bytes bi (bio_sectors bio), 0, 0⟩,
           1, 1, ⟨false, true, bi.csum_type == CsumType.ip⟩, bio.bi_iter⟩ },
         [])) := by
  simp only [bio_integrity_prep_body, hbuf, bio_integrity_alloc, hcrypt, hbip,
    fresh_payload, bio_integrity_add_page, bip_append]
  simp [zeroIter, zeroVec]

/-- C5 (amended): `prepare` is a no-op returning `Continue` exactly when
no profile is bound, the request has zero sectors, a payload is already
attached, the profile disables the request's direction, or the request's
operation is neither a read nor a write (e.g. a discard); otherwise it
attaches a one-segment payload sized to interval size × interval count,
seeded with the starting sector, generating synchronously for writes and
recording the byte-iteration state for reads. -/
theorem claim_C5_prep (q : Queue) (obi : Option BlkIntegrity) (env : PrepEnv)
    (bio : Bio) (hbuf : env.buf_ok = true) (hbip : env.bip_ok = true)
    (hcrypt : bio.has_crypt_ctx = false) :
    (bio_integrity_prep q obi env bio = (true, bio, []) ↔
      (obi = none ∨ bio_sectors bio = 0 ∨ bio.bi_integrity.isSome = true ∨
       (∃ bi, obi = some bi ∧ bio.bi_op = BioOp.read ∧ bi.noverify = true) ∨
       (∃ bi, obi = some bi ∧ bio.bi_op = BioOp.write ∧ bi.nogenerate = true) ∨
       bio.bi_op = BioOp.other)) ∧
    (∀ bi, obi = some bi → bio_sectors bio ≠ 0 → bio.bi_integrity = none →
      ((bio.bi_op = BioOp.read ∧ bi.noverify = false) ∨
       (bio.bi_op = BioOp.write ∧ bi.nogenerate = false)) →
      ∃ bip,
        (bio_integrity_prep q obi env bio).1 = true ∧
        (bio_integrity_prep q obi env bio).2.1 =
          { bio with bi_integrity := some bip } ∧
        bip.bip_vcnt = 1 ∧ bip.bip_max_vcnt = 1 ∧
        bip.bip_vec = [⟨env.buf_page, bio_integrity_bytes bi (bio_sectors bio),
          env.buf_offset⟩] ∧
        bip.bip_iter.bi_size = bio_integrity_bytes bi (bio_sectors bio) ∧
        bip.bip_iter.bi_sector = bio.bi_iter.bi_sector ∧
        bip.bip_flags.block_integrity = true ∧
        bip.bip_flags.copy_user = false ∧
        (bio.bi_op = BioOp.write →
          (bio_integrity_prep q obi env bio).2.2 = [PEvent.generate]) ∧
        (bio.bi_op = BioOp.read →
          (bio_integrity_prep q obi env bio).2.2 = [] ∧
          bip.bio_iter = bio.bi_iter)) := by
  constructor
  · constructor
    · intro heq
      by_contra hnot
      simp only [not_or] at hnot
      obtain ⟨hn1, hn2, hn3, hn4, hn5, hn6⟩ := hnot
      rcases obi with _ | bi
      · exact hn1 rfl
      · have hnone : bio.bi_integrity = none :=
          Option.not_isSome_iff_eq_none.mp hn3
        have hbody := bio_integrity_prep_body_ok q bi env bio hbuf hbip hcrypt
        cases hop : bio.bi_op
        case other => exact hn6 hop
        case read =>
          cases hnv : bi.noverify
          · have hpre : bio_integrity_prep q (some bi) env bio =
                bio_integrity_prep_body q bi env bio := by
              simp [bio_integrity_prep, hn2, hnone, hop, hnv]
            rw [hpre, hbody, hop] at heq
            simp [hnone] at heq
            have h2 := congrArg Bio.bi_integrity heq
            rw [hnone] at h2
            cases h2
          · exact hn4 ⟨bi, rfl, hop, hnv⟩
        case write =>
          cases hng : bi.nogenerate
          · have hpre : bio_integrity_prep q (some bi) env bio =
                bio_integrity_prep_body q bi env bio := by
              simp [bio_integrity_prep, hn2, hnone, hop, hng]
            rw [hpre, hbody, hop] at heq
            simp [hnone] at heq
          · exact hn5 ⟨bi, rfl, hop, hng⟩
    · intro hdisj
      rcases obi with _ | bi
      · rfl
      · by_cases hs : bio_sectors bio = 0
        · simp [bio_integrity_prep, hs]
        · by_cases hi : bio.bi_integrity.isSome = true
          · simp [bio_integrity_prep, hs, hi]
          · rcases hdisj with h | h | h | ⟨bi', hbi, hop, hflag⟩ |
                ⟨bi', hbi, hop, hflag⟩ | h
            · cases h
            · exact absurd h hs
            · exact absurd h hi
            · cases hbi
              simp [bio_integrity_prep, hs, hi, hop, hflag]
            · cases hbi
              simp [bio_integrity_prep, hs, hi, hop, hflag]
            · simp [bio_integrity_prep, hs, hi, h]
  · rintro bi rfl hsec hnone hop
    have hbody := bio_integrity_prep_body_ok q bi env bio hbuf hbip hcrypt
    rcases hop with ⟨h1, h2⟩ | ⟨h1, h2⟩
    · have hpre : bio_integrity_prep q (some bi) env bio =
          bio_integrity_prep_body q bi env bio := by
        simp [bio_integrity_prep, hsec, hnone, h1, h2]
      refine ⟨⟨[⟨env.buf_page, bio_integrity_bytes bi (bio_sectors bio),
          env.buf_offset⟩],
        ⟨bio.bi_iter.bi_sector, bio_integrity_bytes bi (bio_sectors bio), 0, 0⟩,
        1, 1, ⟨false, true, bi.csum_type == CsumType.ip⟩, bio.bi_iter⟩,
        ?_, ?_, rfl, rfl, rfl, rfl, rfl, rfl, rfl, ?_, ?_⟩
      · rw [hpre, hbody, h1]
        rfl
      · rw [hpre, hbody, h1]
        rfl
      · intro hw
        rw [h1] at hw
        cases hw
      · intro _
        refine ⟨?_, rfl⟩
        rw [hpre, hbody, h1]
        rfl
    · have hpre : bio_integrity_prep q (some bi) env bio =
          bio_integrity_prep_body q bi env bio := by
        simp [bio_integrity_prep, hsec, hnone, h1, h2]
      refine ⟨⟨[⟨env.buf_page, bio_integrity_bytes bi (bio_sectors bio),
          env.buf_offset⟩],
        ⟨bio.bi_iter.bi_sector, bio_integrity_bytes bi (bio_sectors bio), 0, 0⟩,
        1, 1, ⟨false, true, bi.csum_type == CsumType.ip⟩, zeroIter⟩,
        ?_, ?_, rfl, rfl, rfl, rfl, rfl, rfl, rfl, ?_, ?_⟩
      · rw [hpre, hbody, h1]
        rfl
      · rw [hpre, hbody, h1]
        rfl
      · intro _
        rw [hpre, hbody, h1]
        rfl
      · intro hr
        rw [h1] at hr
        cases hr

/-- Counterexample to C5 as stated: an 8-sector discard-like request (an
opcode that is neither a read nor a write) with a bound profile, sectors,
no payload attached and both directions enabled — none of the claim's
no-op conditions hold, so the claim requires a payload to be allocated and
attached — yet the code passes the request through untouched. -/
theorem claim_C5_counterexample :
    bio_integrity_prep exQ (some exBI) exPrepEnv exBioOther =
      (true, exBioOther, []) ∧
    bio_sectors exBioOther ≠ 0 ∧
    exBioOther.bi_integrity = none ∧
    ¬(exBioOther.bi_op = BioOp.read ∧ exBI.noverify = true) ∧
    ¬(exBioOther.bi_op = BioOp.write ∧ exBI.nogenerate = true) := by
  refine ⟨rfl, by decide, rfl, ?_, ?_⟩
  · rintro ⟨h, _⟩
    cases h
  · rintro ⟨h, _⟩
    cases h

/-- Witness for C5 at a concrete 8-sector write on a CRC profile. -/
theorem claim_C5_witness :
    ∃ bip,
      (bio_integrity_prep exQ (some exBI) exPrepEnv exBioW8).1 = true ∧
      (bio_integrity_prep exQ (some exBI) exPrepEnv exBioW8).2.1 =
        { exBioW8 with bi_integrity := some bip } ∧
      bip.bip_vcnt = 1 ∧ bip.bip_max_vcnt = 1 ∧
      bip.bip_vec = [⟨exPrepEnv.buf_page,
        bio_integrity_bytes exBI (bio_sectors exBioW8), exPrepEnv.buf_offset⟩] ∧
      bip.bip_iter.bi_size = bio_integrity_bytes exBI (bio_sectors exBioW8) ∧
      bip.bip_iter.bi_sector = exBioW8.bi_iter.bi_sector ∧
      bip.bip_flags.block_integrity = true ∧
      bip.bip_flags.copy_user = false ∧
      (exBioW8.bi_op = BioOp.write →
        (bio_integrity_prep exQ (some exBI) exPrepEnv exBioW8).2.2 =
          [PEvent.generate]) ∧
      (exBioW8.bi_op = BioOp.read →
        (bio_integrity_prep exQ (some exBI) exPrepEnv exBioW8).2.2 = [] ∧
        bip.bio_iter = exBioW8.bi_iter) :=
  (claim_C5_prep exQ (some exBI) exPrepEnv exBioW8 rfl rfl rfl).2 exBI rfl
    (by decide) rfl (Or.inr ⟨rfl, rfl⟩)

/-- A store list does not disturb an address it does not contain. -/
theorem writeList_of_notMem : ∀ (as' ds : List Nat) (m : Mem) (a : Nat),
    a ∉ as' → writeList m as' ds a = m a
  | [], ds, _, _, _ => by cases ds <;> rfl
  | _ :: _, [], _, _, _ => rfl
  | b :: bs, d :: ds, m, a, h => by
    have hab : a ≠ b := fun hh => h (by simp [hh])
    have hbs : a ∉ bs := fun hh => h (by simp [hh])
    show writeList (memWrite m b d) bs ds a = m a
    rw [writeList_of_notMem bs ds _ a hbs]
    simp [memWrite, hab]

/-- Gather after scatter: storing `ds` at pairwise-distinct addresses and
reading those addresses back returns `ds`. -/
theorem readList_writeList : ∀ (as' ds : List Nat) (m : Mem), as'.Nodup →
    ds.length = as'.length → readList (writeList m as' ds) as' = ds
  | [], [], _, _, _ => rfl
  | [], _ :: _, _, _, h => by simp at h
  | _ :: _, [], _, _, h => by simp at h
  | a :: as', d :: ds, m, hnd, hlen => by
    have hna : a ∉ as' := (List.nodup_cons.mp hnd).1
    have hnd' : as'.Nodup := (List.nodup_cons.mp hnd).2
    have hlen' : ds.length = as'.length := by simpa using hlen
    show writeList (memWrite m a d) as' ds a ::
      readList (writeList (memWrite m a d) as' ds) as' = d :: ds
    rw [writeList_of_notMem as' ds _ a hna,
      readList_writeList as' ds (memWrite m a d) hnd' hlen']
    simp [memWrite]

/-- A segment of length `len` covers `len` addresses. -/
theorem segAddrs_length (s : BioVec) : (segAddrs s).length = s.bv_len := by
  simp [segAddrs]

/-- A segment list covers `sumLens` addresses. -/
theorem flatAddrs_length : ∀ l : List BioVec,
    (flatAddrs l).length = sumLens l
  | [] => rfl
  | s :: ss => by
    simp [flatAddrs, sumLens, segAddrs_length, flatAddrs_length ss]

/-- The addresses of one segment are pairwise distinct. -/
theorem segAddrs_nodup (s : BioVec) : (segAddrs s).Nodup := by
  refine List.Nodup.map ?_ (List.nodup_range _)
  intro i j hij
  simp at hij
  omega

/-- C7: copy-mode unmapping round-trips the data.  For a read, the bounce
buffer's contents are copied back into the original pinned segments
(recorded at slots `1 ..`) before those pages are dirtied and unpinned and
the bounce buffer freed — so the caller's pages receive exactly the bytes
the device delivered into the bounce buffer; for a write, unmapping leaves
user memory untouched and only frees the bounce buffer, the caller's bytes
having been copied into the bounce buffer at map time
(`bio_integrity_copy_user` with the write direction). -/
theorem claim_C7_copy_mode_roundtrip
    (mem : Mem) (bip : BioIntegrityPayload) (bioR bioW : Bio)
    (bounce : BioVec) (origs : List BioVec)
    (q2 : Queue) (bio2 : Bio) (mem2 : Mem) (env2 : MapEnv)
    (bvec2 : List BioVec) (n2 len2 seed2 : Nat)
    (hR : bioR.bi_integrity = some bip) (hRop : bioR.bi_op = BioOp.read)
    (hW : bioW.bi_integrity = some bip) (hWop : bioW.bi_op = BioOp.write)
    (hcu : bip.bip_flags.copy_user = true)
    (hvec : bip.bip_vec = bounce :: origs)
    (hmax : bip.bip_max_vcnt = origs.length + 1)
    (hsum : sumLens origs = bounce.bv_len)
    (hnd : (flatAddrs origs).Nodup)
    (hbuf2 : env2.buf_ok = true) (hbip2 : env2.bip_ok = true)
    (hcrypt2 : bio2.has_crypt_ctx = false)
    (hlen2 : len2 ≤ sumLens bvec2) :
    (readList (bio_integrity_unmap_user bioR mem).1 (flatAddrs origs) =
       readList mem (segAddrs bounce) ∧
     (bio_integrity_unmap_user bioR mem).2 =
       UEvent.copy_back :: bio_integrity_unpin_bvec true origs ++
         [UEvent.free_bounce]) ∧
    bio_integrity_unmap_user bioW mem = (mem, [UEvent.free_bounce]) ∧
    (∃ bio2' mem2',
      bio_integrity_copy_user q2 bio2 mem2 env2 bvec2 n2 len2 true seed2 =
        .ok (bio2', mem2') ∧
      readList mem2' (segAddrs ⟨env2.bounce_page, len2, env2.bounce_offset⟩) =
        readList mem2 ((flatAddrs bvec2).take len2)) := by
  have htake : (flatAddrs origs).take bounce.bv_len = flatAddrs origs := by
    rw [← hsum, ← flatAddrs_length]
    exact List.take_length _
  have hun : bio_integrity_unmap_user bioR mem =
      (writeList mem (flatAddrs origs) (readList mem (segAddrs bounce)),
       UEvent.copy_back :: bio_integrity_unpin_bvec true origs ++
         [UEvent.free_bounce]) := by
    simp [bio_integrity_unmap_user, hR, hcu, bio_data_dir_read, hRop,
      bio_integrity_uncopy_user, hvec, hmax, htake]
  refine ⟨⟨?_, ?_⟩, ?_, ?_⟩
  · rw [hun]
    exact readList_writeList _ _ _ hnd
      (by simp [readList, segAddrs_length, flatAddrs_length, hsum])
  · rw [hun]
  · simp [bio_integrity_unmap_user, hW, hcu, bio_data_dir_read, hWop]
  · have heqC : bio_integrity_copy_user q2 bio2 mem2 env2 bvec2 n2 len2 true
        seed2 =
        .ok ({ bio2 with bi_integrity := some ⟨[⟨env2.bounce_page, len2,
            env2.bounce_offset⟩], ⟨seed2, len2, 0, 0⟩, n2, 1,
            ⟨true, false, false⟩, zeroIter⟩ },
          writeList mem2 (segAddrs ⟨env2.bounce_page, len2, env2.bounce_offset⟩)
            (readList mem2 ((flatAddrs bvec2).take len2))) := by
      simp [bio_integrity_copy_user, hbuf2, bio_integrity_alloc, hcrypt2,
        hbip2, bio_integrity_add_page, bip_append, fresh_payload, zeroVec,
        zeroIter]
    refine ⟨_, _, heqC, ?_⟩
    refine readList_writeList _ _ _ (segAddrs_nodup _) ?_
    simp [readList, segAddrs_length, flatAddrs_length]
    omega

/-- Witness for C7 at a concrete copy-mode payload: bounce segment of 4
bytes, two pinned 2-byte user segments, and a 2-byte write mapping. -/
theorem claim_C7_witness :
    (readList (bio_integrity_unmap_user exBioRCopy exMemV).1
        (flatAddrs [⟨1, 2, 100⟩, ⟨2, 2, 0⟩]) =
       readList exMemV (segAddrs ⟨50, 4, 0⟩) ∧
     (bio_integrity_unmap_user exBioRCopy exMemV).2 =
       UEvent.copy_back ::
         bio_integrity_unpin_bvec true [⟨1, 2, 100⟩, ⟨2, 2, 0⟩] ++
         [UEvent.free_bounce]) ∧
    bio_integrity_unmap_user exBioWCopy exMemV = (exMemV, [UEvent.free_bounce]) ∧
    (∃ bio2' mem2',
      bio_integrity_copy_user exQ exBioW exMemV exEnv [⟨3, 2, 8⟩] 1 2 true 4 =
        .ok (bio2', mem2') ∧
      readList mem2' (segAddrs ⟨exEnv.bounce_page, 2, exEnv.bounce_offset⟩) =
        readList exMemV ((flatAddrs [⟨3, 2, 8⟩]).take 2)) :=
  claim_C7_copy_mode_roundtrip exMemV exBipCopy exBioRCopy exBioWCopy
    ⟨50, 4, 0⟩ [⟨1, 2, 100⟩, ⟨2, 2, 0⟩] exQ exBioW exMemV exEnv [⟨3, 2, 8⟩]
    1 2 4 rfl rfl rfl rfl rfl rfl rfl (by decide) (by decide) rfl rfl rfl
    (by decide)

/-- C1 is violated by the code: mapping an unaligned user write buffer
that coalesces into two pinned segments takes the bounce-copy path, whose
final `bip_vcnt = nr_vecs` assignment (line 252 of the source) records 2
filled segments in a payload allocated with `bip_max_vcnt = 1` (only the
bounce segment exists) — so `segment_count ≤ max_segments` does not hold
after this mutating operation. -/
theorem claim_C1_invariant_violation :
    ((bio_integrity_map_user exQ exBioW exMem exEnv 4090 16 3).toOption.map
      (fun r => r.1.bi_integrity.map (fun b => (b.bip_vcnt, b.bip_max_vcnt)))) =
      some (some (2, 1)) ∧ ¬(2 ≤ 1) := by
  constructor
  · decide
  · decide

end BioIntegrity
